import Mathlib

/-!
# Verification of the PixilAssignment DockerHub MCP server core

Shallow embedding of the repository's core subsystems and proofs about them:

* `SmartCache` (src/cache/SmartCache.ts): TTL/LRU cache — `get` (get-or-compute
  with stale fallback), `set` (with LRU eviction), `has`, `generateKey`.
* Credential exchanger (src/dockerhubFunctions/auth.ts):
  `getDockerHubBearerToken`, `getDockerHubAPIToken`.
* Fallback request pipeline: `getManifestDetails`
  (src/dockerhubFunctions/manifestDetails.ts) and `listRepositoryTags`
  (src/dockerhubFunctions/listRepositoryTags.ts).
* Tool handlers: `docker_get_image_details`, `docker_compare_images`.

Stateful TypeScript is embedded as explicit state passing; `Date.now()` and
`performance.now()` become explicit `now : Nat` parameters; network I/O becomes
explicitly supplied outcomes (the environment's responses); a thrown exception
becomes `Except.error`.  JavaScript `Map` objects are embedded as association
lists in insertion order (a JS `Map` keeps unique keys and remembers insertion
order; `set` of an existing key updates in place, `set` of a new key appends).
-/

namespace PixilSpec

/-! ## JavaScript `Map` model -/

/-- `Map.get`: first binding for the key (a JS `Map` holds at most one). -/
def mapGet {α : Type} : List (String × α) → String → Option α
  | [], _ => none
  | (k', v) :: rest, k => if k' = k then some v else mapGet rest k

/-- `Map.has`. -/
def mapHas {α : Type} (l : List (String × α)) (k : String) : Bool :=
  (mapGet l k).isSome

/-- `Map.set`: update an existing binding in place (keeping its position),
otherwise append.  On the unique-key lists a JS `Map` produces, replacing
every binding for `k` coincides with replacing the single one. -/
def mapSet {α : Type} (l : List (String × α)) (k : String) (v : α) :
    List (String × α) :=
  if mapHas l k then
    l.map (fun p => if p.1 = k then (k, v) else p)
  else
    l ++ [(k, v)]

/-- `Map.delete` (ignoring the returned boolean where the code does). -/
def mapDelete {α : Type} (l : List (String × α)) (k : String) :
    List (String × α) :=
  l.filter (fun p => p.1 ≠ k)

/-! ## SmartCache data model (src/cache/SmartCache.ts) -/

/-- `CacheEntry<T>`: payload, creation timestamp (ms), time-to-live (ms),
hit counter. -/
structure CacheEntry (V : Type) where
  data : V
  timestamp : Nat
  ttl : Nat
  hits : Nat
  deriving Repr, DecidableEq

/-- The integer counters of `CacheStats`.  The derived float fields
(`hitRate`, `memoryUsage`) are display-only and not embedded. -/
structure CacheStats where
  totalRequests : Nat
  cacheHits : Nat
  cacheMisses : Nat
  deriving Repr, DecidableEq

/-- `CacheConfig` (the log level and stats switch do not influence the
cache's functional behaviour and are not embedded). -/
structure CacheConfig where
  maxSize : Nat
  defaultTTL : Nat
  cleanupInterval : Nat
  deriving Repr, DecidableEq

/-- Names of the `ttlStrategies` table. -/
inductive CacheType where
  | imageMetadata | repositoryInfo | tags
  | searchResults | downloadStats | vulnerabilities
  | manifest | layers | dockerfile
  | bearerTokens | rateLimit
  deriving Repr, DecidableEq

/-- `ttlStrategies`: TTL in milliseconds per data-volatility class. -/
def ttlStrategies : CacheType → Nat
  | .imageMetadata => 3600000
  | .repositoryInfo => 3600000
  | .tags => 1800000
  | .searchResults => 900000
  | .downloadStats => 1800000
  | .vulnerabilities => 7200000
  | .manifest => 600000
  | .layers => 600000
  | .dockerfile => 3600000
  | .bearerTokens => 270000
  | .rateLimit => 60000

/-- Mutable state of a `SmartCache` instance: the entry map, the
access-order ledger, the stats counters, the fixed config, and the
monotone request counter. -/
structure SmartCacheState (V : Type) where
  cache : List (String × CacheEntry V)
  accessOrder : List (String × Nat)
  stats : CacheStats
  config : CacheConfig
  requestCounter : Nat
  deriving Repr, DecidableEq

/-- A fresh instance (constructor with all-zero stats). -/
def SmartCacheState.init (V : Type) (config : CacheConfig) :
    SmartCacheState V :=
  { cache := [], accessOrder := [], stats := ⟨0, 0, 0⟩,
    config := config, requestCounter := 0 }

/-- JS `a || b` on an optional number: `undefined` and `0` are falsy. -/
def jsOrNat : Option Nat → Nat → Nat
  | some n, d => if n = 0 then d else n
  | none, d => d

/-- JS `a || b` on an optional string: `undefined` and `""` are falsy. -/
def jsOrStr : Option String → String → String
  | some s, d => if s = "" then d else s
  | none, d => d

/-- `customTTL || (cacheType ? this.ttlStrategies[cacheType] : undefined)
|| this.config.defaultTTL` from `SmartCache.get`. -/
def resolveTTL (customTTL : Option Nat) (cacheType : Option CacheType)
    (defaultTTL : Nat) : Nat :=
  jsOrNat customTTL (jsOrNat (cacheType.map ttlStrategies) defaultTTL)

/-- The `for (const [key, accessTime] of this.accessOrder.entries())` scan in
`evictLRU`: running best (strict `<`, so the earliest-inserted binding wins
ties), starting from `oldestKey = ''`, `oldestAccess = Infinity` — modelled as
`none`. -/
def oldestLoop (acc : Option (String × Nat)) :
    List (String × Nat) → Option (String × Nat)
  | [] => acc
  | p :: rest =>
      oldestLoop
        (match acc with
         | none => some p
         | some q => if p.2 < q.2 then some p else some q) rest

/-- The key/stamp pair `evictLRU`'s scan ends with. -/
def oldestEntry (l : List (String × Nat)) : Option (String × Nat) :=
  oldestLoop none l

/-- `evictLRU`: delete the least-recently-stamped key — but only `if
(oldestKey)`, i.e. only when the found key is truthy (non-empty).  An empty
ledger, or an empty-string winning key, deletes nothing. -/
def evictLRU {V : Type} (s : SmartCacheState V) : SmartCacheState V :=
  match oldestEntry s.accessOrder with
  | none => s
  | some (oldestKey, _) =>
      if oldestKey = "" then s
      else
        { s with
          cache := mapDelete s.cache oldestKey,
          accessOrder := mapDelete s.accessOrder oldestKey }

/-- `SmartCache.set(key, data, ttl?)` at wall-clock time `now`.
Evicts first when at capacity and the key is new; stores the entry with
`ttl || defaultTTL` (JS: an explicit `0` also falls back) and stamps the
access order with the current request counter (`set` does not advance it). -/
def SmartCache.set {V : Type} (s : SmartCacheState V) (key : String) (data : V)
    (ttl : Option Nat) (now : Nat) : SmartCacheState V :=
  let s1 :=
    if s.cache.length ≥ s.config.maxSize ∧ ¬ mapHas s.cache key then
      evictLRU s
    else s
  let entry : CacheEntry V :=
    { data := data, timestamp := now,
      ttl := jsOrNat ttl s1.config.defaultTTL, hits := 0 }
  { s1 with
    cache := mapSet s1.cache key entry,
    accessOrder := mapSet s1.accessOrder key s1.requestCounter }

/-- Outcome of one `SmartCache.get` call: the returned-or-thrown value, the
state after the call, and whether `fetchFn` was invoked. -/
structure GetResult (E V : Type) where
  result : Except E V
  state : SmartCacheState V
  fetchCalled : Bool
  deriving Repr

/-- The cache-miss tail of `SmartCache.get` (`stats.cacheMisses++` followed by
the `try { await fetchFn() } catch` block). -/
def SmartCache.getMiss {E V : Type} (s0 : SmartCacheState V) (key : String)
    (fetchResult : Except E V) (cacheType : Option CacheType)
    (customTTL : Option Nat) (now : Nat) (cached : Option (CacheEntry V)) :
    GetResult E V :=
  let s1 : SmartCacheState V :=
    { s0 with
      stats := { s0.stats with cacheMisses := s0.stats.cacheMisses + 1 } }
  match fetchResult with
  | .ok data =>
      let ttl := resolveTTL customTTL cacheType s1.config.defaultTTL
      { result := .ok data,
        state := SmartCache.set s1 key data (some ttl) now,
        fetchCalled := true }
  | .error e =>
      match cached with
      | some c =>
          -- On error, return stale data if available
          { result := .ok c.data,
            state :=
              { s1 with
                cache := mapSet s1.cache key { c with hits := c.hits + 1 },
                accessOrder := mapSet s1.accessOrder key s1.requestCounter },
            fetchCalled := true }
      | none => { result := .error e, state := s1, fetchCalled := true }

/-- `SmartCache.get(key, fetchFn, cacheType?, customTTL?)` at time `now`.
`fetchResult` is the outcome the (asynchronous) `fetchFn` would produce if
invoked; `fetchCalled` records whether the code path awaits it.

* live entry (`timestamp + ttl > now`): hit — bump its hit counter and the
  access stamp, return its data, fetch not called;
* otherwise invoke the fetch: on success store via `set` and return the fresh
  value; on failure return the (expired) entry's stale data if one exists,
  else rethrow. -/
def SmartCache.get {E V : Type} (s : SmartCacheState V) (key : String)
    (fetchResult : Except E V) (cacheType : Option CacheType)
    (customTTL : Option Nat) (now : Nat) : GetResult E V :=
  let s0 : SmartCacheState V :=
    { s with
      stats := { s.stats with totalRequests := s.stats.totalRequests + 1 },
      requestCounter := s.requestCounter + 1 }
  let cached := mapGet s0.cache key
  match cached with
  | some c =>
      if c.timestamp + c.ttl > now then
        -- Cache hit
        { result := .ok c.data,
          state :=
            { s0 with
              stats := { s0.stats with cacheHits := s0.stats.cacheHits + 1 },
              cache := mapSet s0.cache key { c with hits := c.hits + 1 },
              accessOrder := mapSet s0.accessOrder key s0.requestCounter },
          fetchCalled := false }
      else
        SmartCache.getMiss s0 key fetchResult cacheType customTTL now (some c)
  | none => SmartCache.getMiss s0 key fetchResult cacheType customTTL now none

/-- `SmartCache.has(key)` at time `now`: `false` for a missing key; for an
expired entry, delete it (and its stamp) and answer `false`; else `true`. -/
def SmartCache.has {V : Type} (s : SmartCacheState V) (key : String)
    (now : Nat) : Bool × SmartCacheState V :=
  match mapGet s.cache key with
  | none => (false, s)
  | some c =>
      if c.timestamp + c.ttl ≤ now then
        (false,
         { s with
           cache := mapDelete s.cache key,
           accessOrder := mapDelete s.accessOrder key })
      else (true, s)

/-! ## `SmartCache.generateKey` -/

/-- The JSON-expressible parameter values the call sites pass (strings and
numbers such as `page`/`pageSize`; numbers are integral in the repository). -/
inductive Jval where
  | str (s : String)
  | num (n : Int)
  | boolean (b : Bool)
  | null
  deriving Repr, DecidableEq

/-- `JSON.stringify` of a primitive value (string escaping elided: the
repository's keys and values contain no characters needing escapes). -/
def stringifyJval : Jval → String
  | .str s => "\"" ++ s ++ "\""
  | .num n => toString n
  | .boolean b => cond b "true" "false"
  | .null => "null"

/-- `JSON.stringify` of an object, fields in insertion order. -/
def jsonStringifyObj (entries : List (String × Jval)) : String :=
  "\x7b" ++
    String.intercalate ","
      (entries.map (fun p => "\"" ++ p.1 ++ "\":" ++ stringifyJval p.2)) ++
    "\x7d"

/-- `Object.keys(params).sort()` (lexicographic string order). -/
def sortKeys (keys : List String) : List String :=
  keys.insertionSort (· ≤ ·)

/-- `SmartCache.generateKey(operation, params)`: rebuild the parameter object
with its keys sorted, serialize, and prefix with the operation name.  A JS
object's keys are distinct, so the lookup in the rebuild always succeeds. -/
def SmartCache.generateKey (operation : String)
    (params : List (String × Jval)) : String :=
  let sortedParams :=
    (sortKeys (params.map Prod.fst)).filterMap
      (fun k => (mapGet params k).map (fun v => (k, v)))
  operation ++ ":" ++ jsonStringifyObj sortedParams

/-! ## Credential exchanger (src/dockerhubFunctions/auth.ts) -/

/-- The token endpoint's JSON body (`AuthTokenResponse`): `token` required,
`access_token` optional. -/
structure AuthTokenResponse where
  token : String
  access_token : Option String
  deriving Repr, DecidableEq

/-- `data.token || data.access_token || null` (JS: the empty string is
falsy). -/
def tokenFromResponse (d : AuthTokenResponse) : Option String :=
  if d.token ≠ "" then some d.token
  else
    match d.access_token with
    | some a => if a ≠ "" then some a else none
    | none => none

/-- `getDockerHubBearerToken(personalAccessToken, scope)`.  The two network
attempts' outcomes (`r1`: credential sent as basic-auth password, `r2`:
credential sent as a bearer header) are supplied by the environment; the
credential and scope shape those requests but not the local control flow.
`Except.error` in the result would mean an exception escaping the function;
every branch here returns `Except.ok`. -/
def getDockerHubBearerToken (personalAccessToken : String) (scope : String)
    (r1 r2 : Except String AuthTokenResponse) :
    Except String (Option String) :=
  match r1 with
  | .ok d => .ok (tokenFromResponse d)
  | .error _ =>
      -- Try alternative authentication method for personal access tokens
      match r2 with
      | .ok d => .ok (tokenFromResponse d)
      | .error _ => .ok none

/-- Outcome of the `hub.docker.com/v2/users/login/` POST: success body with a
`token` field, an Axios error (optional HTTP status, optional response-body
`detail`, error message), or a non-Axios failure. -/
inductive LoginOutcome where
  | ok (token : String)
  | axiosErr (status : Option Nat) (detail : Option String) (message : String)
  | otherErr (message : String)
  deriving Repr, DecidableEq

/-- `${error.response?.status}` — `undefined` renders as the string
`"undefined"`. -/
def renderOptStatus : Option Nat → String
  | some n => toString n
  | none => "undefined"

/-- `getDockerHubAPIToken(personalAccessToken)`: return the session token on
success; on an Axios failure throw
`Authentication failed: ${status} - ${detail || message}`; rethrow any other
failure unchanged. -/
def getDockerHubAPIToken (personalAccessToken : String)
    (outcome : LoginOutcome) : Except String String :=
  match outcome with
  | .ok token => .ok token
  | .axiosErr status detail message =>
      .error ("Authentication failed: " ++ renderOptStatus status ++ " - " ++
        jsOrStr detail message)
  | .otherErr message => .error message

/-! ## Fallback request pipeline -/

/-- Outcome of one upstream HTTP request: parsed response, Axios error with
optional HTTP status, or a non-Axios failure. -/
inductive HttpOutcome (R : Type) where
  | ok (resp : R)
  | axiosErr (status : Option Nat) (message : String)
  | otherErr (message : String)
  deriving Repr, DecidableEq

/-- `error instanceof AxiosError && (error.response?.status === 401 ||
error.response?.status === 404)`. -/
def isAuthShaped {R : Type} : HttpOutcome R → Bool
  | .axiosErr (some 401) _ => true
  | .axiosErr (some 404) _ => true
  | _ => false

/-- Message of a rethrown error (`throw error`). -/
def errMessage {R : Type} : HttpOutcome R → String
  | .ok _ => ""
  | .axiosErr _ m => m
  | .otherErr m => m

/-- `${authError}`: template-string rendering of a caught error value
(`AxiosError: msg` / `Error: msg`). -/
def renderThrown {R : Type} : HttpOutcome R → String
  | .ok _ => ""
  | .axiosErr _ m => "AxiosError: " ++ m
  | .otherErr m => "Error: " ++ m

/-- What one pipeline invocation did: the returned-or-thrown value, how many
times the credential exchanger was invoked, and the list of ephemeral tokens
attached to authenticated retries (one entry per retry issued). -/
structure PipelineResult (R : Type) where
  result : Except String R
  exchangeCalls : Nat
  retryAuths : List String
  deriving Repr

/-- `getManifestDetails(namespace, repository, tag, token?)`
(src/dockerhubFunctions/manifestDetails.ts).  `unauth` is the outcome of the
anonymous registry request, `exchangeResult` the value
`getDockerHubBearerToken` would return (it never throws), and `authed bt` the
outcome of the authenticated retry carrying bearer token `bt`.

Control flow: return the anonymous result on success; on a 401/404 Axios
failure with a credential supplied, exchange for a registry bearer token and
retry once, wrapping any failure of that block as
`Authentication failed: ...`; rethrow every other failure unchanged. -/
def getManifestDetails {R : Type} (unauth : HttpOutcome R)
    (token : Option String) (exchangeResult : Option String)
    (authed : String → HttpOutcome R) : PipelineResult R :=
  match unauth with
  | .ok r => { result := .ok r, exchangeCalls := 0, retryAuths := [] }
  | e =>
      if isAuthShaped e ∧ token.isSome then
        match exchangeResult with
        | some bearerToken =>
            if bearerToken = "" then
              -- `if (!bearerToken) throw ...` — empty string is falsy
              { result := .error
                  "Authentication failed: Error: Failed to get registry bearer token",
                exchangeCalls := 1, retryAuths := [] }
            else
              match authed bearerToken with
              | .ok r =>
                  { result := .ok r, exchangeCalls := 1,
                    retryAuths := [bearerToken] }
              | ae =>
                  { result := .error
                      ("Authentication failed: " ++ renderThrown ae),
                    exchangeCalls := 1, retryAuths := [bearerToken] }
        | none =>
            { result := .error
                "Authentication failed: Error: Failed to get registry bearer token",
              exchangeCalls := 1, retryAuths := [] }
      else
        { result := .error (errMessage e), exchangeCalls := 0,
          retryAuths := [] }

/-- Parsed body of the tags listing endpoint: its `count` field (absent when
the payload has no such field) plus the rest of the document, kept opaque. -/
structure TagsResp where
  count : Option Int
  body : String
  deriving Repr, DecidableEq

/-- The `catch` block of `listRepositoryTags`: exchange the credential for a
JWT session token and retry once; any failure inside the block (the exchange
throwing, a falsy token, or the retry throwing) is wrapped as
`Authentication failed: ${authError}`.  `prevExchanges`/`prevAuths` carry the
counts accumulated before the catch ran. -/
def listTagsCatch (exchange : Except String String)
    (authed : String → HttpOutcome TagsResp) (prevExchanges : Nat)
    (prevAuths : List String) : PipelineResult TagsResp :=
  match exchange with
  | .error m =>
      { result := .error ("Authentication failed: Error: " ++ m),
        exchangeCalls := prevExchanges + 1, retryAuths := prevAuths }
  | .ok jwtToken =>
      if jwtToken = "" then
        -- `if (!jwtToken) throw new Error('Failed to get JWT token')`
        { result := .error "Authentication failed: Error: Failed to get JWT token",
          exchangeCalls := prevExchanges + 1, retryAuths := prevAuths }
      else
        match authed jwtToken with
        | .ok r =>
            { result := .ok r, exchangeCalls := prevExchanges + 1,
              retryAuths := prevAuths ++ [jwtToken] }
        | ae =>
            { result := .error ("Authentication failed: " ++ renderThrown ae),
              exchangeCalls := prevExchanges + 1,
              retryAuths := prevAuths ++ [jwtToken] }

/-- `listRepositoryTags(namespace, repository, page, pageSize, token?)`
(src/dockerhubFunctions/listRepositoryTags.ts).  `exchange1`/`exchange2` are
the outcomes of the first and second `getDockerHubAPIToken` call (which can
throw), `authed1`/`authed2` those of the first and second authenticated
request.

Control flow: anonymous request first.  On a 200 whose body has
`count === 0` and with a credential supplied, exchange and retry
authenticated *even though the anonymous call succeeded*; if that retry
throws a 401/404 Axios error, the outer catch runs a second
exchange-and-retry round.  A thrown anonymous request lands in the outer
catch directly: 401/404 with a credential triggers one exchange-and-retry
round, anything else is rethrown. -/
def listRepositoryTags (unauth : HttpOutcome TagsResp) (token : Option String)
    (exchange1 exchange2 : Except String String)
    (authed1 authed2 : String → HttpOutcome TagsResp) :
    PipelineResult TagsResp :=
  match unauth with
  | .ok r =>
      if r.count = some 0 ∧ token.isSome then
        match exchange1 with
        | .error m =>
            -- thrown inside the `try`; not an AxiosError, so rethrown as-is
            { result := .error m, exchangeCalls := 1, retryAuths := [] }
        | .ok jwtToken =>
            if jwtToken = "" then
              -- `if (jwtToken)` guard fails: fall through to the 200 body
              { result := .ok r, exchangeCalls := 1, retryAuths := [] }
            else
              match authed1 jwtToken with
              | .ok r2 =>
                  { result := .ok r2, exchangeCalls := 1,
                    retryAuths := [jwtToken] }
              | ae =>
                  if isAuthShaped ae then
                    listTagsCatch exchange2 authed2 1 [jwtToken]
                  else
                    { result := .error (errMessage ae), exchangeCalls := 1,
                      retryAuths := [jwtToken] }
      else
        { result := .ok r, exchangeCalls := 0, retryAuths := [] }
  | e =>
      if isAuthShaped e ∧ token.isSome then
        listTagsCatch exchange1 authed1 0 []
      else
        { result := .error (errMessage e), exchangeCalls := 0,
          retryAuths := [] }

/-! ## Tool handlers (src/tools) -/

/-- The tool response envelope of `docker_get_image_details`: the
human-readable `content` text and the structured payload. -/
structure DetailsEnvelope where
  contentText : String
  results : String
  deriving Repr, DecidableEq

/-- `dockerGetImageDetails(env).handler(input)`
(src/tools/docker_get_image_details.ts).  `details` is the outcome of
`cachedDockerHubAPI.getImageDetails` (serialized payload on success, thrown
error otherwise).  The handler has no `try`/`catch`: a fetch failure escapes
it, which the `Except.error` result records. -/
def dockerGetImageDetailsHandler (ns repository : String)
    (details : Except String String) : Except String DetailsEnvelope :=
  match details with
  | .ok d =>
      .ok { contentText :=
              "Details for " ++ ns ++ "/" ++ repository ++ " are: " ++ d,
            results := d }
  | .error e => .error e

/-- One manifest layer as `docker_compare_images` consumes it. -/
structure CmpLayer where
  digest : String
  size : Nat
  deriving Repr, DecidableEq

/-- Result of `fetchManifestAndLayers` for one image: its layer list and the
summed layer sizes. -/
structure CmpImage where
  layers : List CmpLayer
  totalSize : Nat
  deriving Repr, DecidableEq

/-- A failure thrown out of `fetchManifestAndLayers`: the optional upstream
error text (`err?.response?.data?.errors?.[0]?.message`) and the error's own
`message`. -/
structure CmpErr where
  upstreamMsg : Option String
  message : String
  deriving Repr, DecidableEq

/-- The structured `comparison` payload on success. -/
structure CmpPayload where
  image1Total : Nat
  image2Total : Nat
  sharedLayers : List String
  uniqueToImg1 : List String
  uniqueToImg2 : List String
  deriving Repr, DecidableEq

/-- The `docker_compare_images` response envelope: summary text plus the
`comparison` payload, which is `null` (`none`) on failure. -/
structure CompareEnvelope where
  contentText : String
  comparison : Option CmpPayload
  deriving Repr, DecidableEq

/-- `dockerCompareImages(env).handler(input)`
(src/tools/docker_compare_images.ts).  `o1`/`o2` are the outcomes of the two
`fetchManifestAndLayers` calls run under `Promise.all` (when both reject, the
model surfaces the first image's error).  The whole body is wrapped in
`try`/`catch`; the catch returns an envelope with `comparison: null` and a
`Failed to compare images: ...` text, so no failure escapes the handler. -/
def dockerCompareImagesHandler (o1 o2 : Except CmpErr CmpImage) :
    Except String CompareEnvelope :=
  match o1, o2 with
  | .ok img1, .ok img2 =>
      let img1LayerDigests := img1.layers.map (fun l => l.digest)
      let img2LayerDigests := img2.layers.map (fun l => l.digest)
      let sharedLayers :=
        img1LayerDigests.filter (fun d => img2LayerDigests.contains d)
      let uniqueToImg1 :=
        img1LayerDigests.filter (fun d => ¬ img2LayerDigests.contains d)
      let uniqueToImg2 :=
        img2LayerDigests.filter (fun d => ¬ img1LayerDigests.contains d)
      .ok { contentText :=
              "Compared images. Shared layers: " ++
                toString sharedLayers.length ++
                ", Unique to image1: " ++ toString uniqueToImg1.length ++
                ", Unique to image2: " ++ toString uniqueToImg2.length,
            comparison := some
              { image1Total := img1.totalSize,
                image2Total := img2.totalSize,
                sharedLayers := sharedLayers,
                uniqueToImg1 := uniqueToImg1,
                uniqueToImg2 := uniqueToImg2 } }
  | .error err, _ =>
      .ok { contentText :=
              "Failed to compare images: " ++ jsOrStr err.upstreamMsg err.message,
            comparison := none }
  | _, .error err =>
      .ok { contentText :=
              "Failed to compare images: " ++ jsOrStr err.upstreamMsg err.message,
            comparison := none }

/-! ## Map-model lemmas -/

theorem mapGet_nil {α : Type} (k : String) : mapGet ([] : List (String × α)) k = none := rfl

theorem mapGet_cons {α : Type} (k' : String) (v : α) (rest : List (String × α))
    (k : String) :
    mapGet ((k', v) :: rest) k = if k' = k then some v else mapGet rest k := rfl

theorem mapHas_eq_false_of_get_none {α : Type} {l : List (String × α)}
    {k : String} (h : mapGet l k = none) : mapHas l k = false := by
  simp [mapHas, h]

theorem mapGet_map_update {α : Type} {l : List (String × α)} {k : String}
    (v : α) (h : mapHas l k = true) :
    mapGet (l.map (fun p => if p.1 = k then (k, v) else p)) k = some v := by
  induction l with
  | nil => simp [mapHas, mapGet] at h
  | cons p rest ih =>
      obtain ⟨k', v'⟩ := p
      by_cases hk : k' = k
      · subst hk
        have hf : (fun p : String × α => if p.1 = k' then (k', v) else p) (k', v') =
            (k', v) := by simp
        simp [List.map, hf, mapGet_cons]
      · have hf : (fun p : String × α => if p.1 = k then (k, v) else p) (k', v') =
            (k', v') := by simp [hk]
        simp only [mapHas, mapGet_cons, hk, if_false] at h
        simpa [List.map, hf, mapGet_cons, hk] using ih h

theorem mapGet_append_of_none {α : Type} {l1 : List (String × α)}
    (l2 : List (String × α)) {k : String} (h : mapGet l1 k = none) :
    mapGet (l1 ++ l2) k = mapGet l2 k := by
  induction l1 with
  | nil => rfl
  | cons p rest ih =>
      obtain ⟨k', v'⟩ := p
      by_cases hk : k' = k
      · simp [mapGet_cons, hk] at h
      · simp only [mapGet_cons, hk, if_false] at h
        simpa [mapGet_cons, hk] using ih h

theorem mapGet_mapSet_self {α : Type} (l : List (String × α)) (k : String)
    (v : α) : mapGet (mapSet l k v) k = some v := by
  unfold mapSet
  by_cases h : mapHas l k
  · simp only [h, if_true]
    exact mapGet_map_update v h
  · have hn : mapGet l k = none := by
      simp [mapHas] at h
      exact h
    rw [mapHas_eq_false_of_get_none hn]
    simp only [Bool.false_eq_true, if_false]
    rw [mapGet_append_of_none _ hn]
    simp [mapGet_cons]

theorem mapGet_mapDelete_self {α : Type} (l : List (String × α)) (k : String) :
    mapGet (mapDelete l k) k = none := by
  induction l with
  | nil => rfl
  | cons p rest ih =>
      obtain ⟨k', v'⟩ := p
      by_cases hk : k' = k
      · simpa [mapDelete, hk] using ih
      · simpa [mapDelete, List.filter, hk, mapGet_cons] using ih

/-! ## TTL-resolution lemmas -/

theorem ttlStrategies_ne_zero (c : CacheType) : ttlStrategies c ≠ 0 := by
  cases c <;> simp [ttlStrategies]

theorem jsOrNat_eq_zero {o : Option Nat} {d : Nat} (h : jsOrNat o d = 0) :
    d = 0 := by
  cases o with
  | none => exact h
  | some n =>
      by_cases hn : n = 0
      · simpa [jsOrNat, hn] using h
      · simp [jsOrNat, hn] at h

/-- Storing the TTL computed by `get` through `set`'s own `ttl || defaultTTL`
fallback leaves it unchanged. -/
theorem jsOrNat_resolveTTL (cu : Option Nat) (ct : Option CacheType)
    (d : Nat) : jsOrNat (some (resolveTTL cu ct d)) d = resolveTTL cu ct d := by
  show (if resolveTTL cu ct d = 0 then d else resolveTTL cu ct d) =
    resolveTTL cu ct d
  split
  · next h =>
      have h2 : jsOrNat (ct.map ttlStrategies) d = 0 := jsOrNat_eq_zero h
      have h3 : d = 0 := jsOrNat_eq_zero h2
      omega
  · rfl

/-! ## `SmartCache.get` / `has` / `set` behaviour lemmas -/

theorem evictLRU_config {V : Type} (s : SmartCacheState V) :
    (evictLRU s).config = s.config := by
  cases h : oldestEntry s.accessOrder with
  | none => simp [evictLRU, h]
  | some p =>
      obtain ⟨k, m⟩ := p
      by_cases hk : k = "" <;> simp [evictLRU, h, hk]

theorem set_config {V : Type} (s : SmartCacheState V) (key : String) (data : V)
    (ttl : Option Nat) (now : Nat) :
    (SmartCache.set s key data ttl now).config = s.config := by
  unfold SmartCache.set
  split
  · exact evictLRU_config s
  · rfl

/-- After a `set`, looking the key up yields exactly the stored entry (with
`set`'s own `ttl || defaultTTL` fallback applied). -/
theorem mapGet_set_self {V : Type} (s : SmartCacheState V) (key : String)
    (data : V) (ttl : Option Nat) (now : Nat) :
    mapGet (SmartCache.set s key data ttl now).cache key =
      some { data := data, timestamp := now,
             ttl := jsOrNat ttl s.config.defaultTTL, hits := 0 } := by
  unfold SmartCache.set
  have hcfg :
      (if s.cache.length ≥ s.config.maxSize ∧ ¬ mapHas s.cache key = true then
          evictLRU s
        else s).config = s.config := by
    split
    · exact evictLRU_config s
    · rfl
  simp only [mapGet_mapSet_self, hcfg]

/-- A live entry is a cache hit: its data is returned and the fetch is not
invoked. -/
theorem get_hit {E V : Type} (s : SmartCacheState V) (key : String)
    (fr : Except E V) (ct : Option CacheType) (cu : Option Nat) (now : Nat)
    (c : CacheEntry V) (h : mapGet s.cache key = some c)
    (hl : c.timestamp + c.ttl > now) :
    (SmartCache.get s key fr ct cu now).result = .ok c.data ∧
    (SmartCache.get s key fr ct cu now).fetchCalled = false := by
  unfold SmartCache.get
  simp [h, hl]

/-- An expired entry is a miss: the fetch is invoked. -/
theorem get_fetchCalled_of_expired {E V : Type} (s : SmartCacheState V)
    (key : String) (fr : Except E V) (ct : Option CacheType) (cu : Option Nat)
    (now : Nat) (c : CacheEntry V) (h : mapGet s.cache key = some c)
    (hexp : c.timestamp + c.ttl ≤ now) :
    (SmartCache.get s key fr ct cu now).fetchCalled = true := by
  have hl : ¬ c.timestamp + c.ttl > now := by omega
  unfold SmartCache.get
  simp only [h, hl, if_false]
  cases fr <;> simp [SmartCache.getMiss]

/-- A missing key is a miss: the fetch is invoked. -/
theorem get_fetchCalled_of_absent {E V : Type} (s : SmartCacheState V)
    (key : String) (fr : Except E V) (ct : Option CacheType) (cu : Option Nat)
    (now : Nat) (h : mapGet s.cache key = none) :
    (SmartCache.get s key fr ct cu now).fetchCalled = true := by
  unfold SmartCache.get
  simp only [h]
  cases fr <;> simp [SmartCache.getMiss]

/-- On a miss over an expired entry, a successful fetch's fresh value is
returned (never the expired one). -/
theorem get_fresh_of_expired {E V : Type} (s : SmartCacheState V)
    (key : String) (v : V) (ct : Option CacheType) (cu : Option Nat)
    (now : Nat) (c : CacheEntry V) (h : mapGet s.cache key = some c)
    (hexp : c.timestamp + c.ttl ≤ now) :
    (SmartCache.get s key (Except.ok (ε := E) v) ct cu now).result =
      .ok v := by
  have hl : ¬ c.timestamp + c.ttl > now := by omega
  unfold SmartCache.get
  simp [h, hl, SmartCache.getMiss]

/-- Stale fallback: expired entry plus failing fetch returns the old data. -/
theorem get_stale_of_expired {E V : Type} (s : SmartCacheState V)
    (key : String) (e : E) (ct : Option CacheType) (cu : Option Nat)
    (now : Nat) (c : CacheEntry V) (h : mapGet s.cache key = some c)
    (hexp : c.timestamp + c.ttl ≤ now) :
    (SmartCache.get s key (Except.error (α := V) e) ct cu now).result =
      .ok c.data := by
  have hl : ¬ c.timestamp + c.ttl > now := by omega
  unfold SmartCache.get
  simp [h, hl, SmartCache.getMiss]

/-- With no entry at all, a failing fetch propagates. -/
theorem get_error_of_absent {E V : Type} (s : SmartCacheState V)
    (key : String) (e : E) (ct : Option CacheType) (cu : Option Nat)
    (now : Nat) (h : mapGet s.cache key = none) :
    (SmartCache.get s key (Except.error (α := V) e) ct cu now).result =
      .error e := by
  unfold SmartCache.get
  simp [h, SmartCache.getMiss]

/-- On a miss with a successful fetch, the entry stored for the key holds the
fetched value, the current time stamp, and the resolved TTL. -/
theorem get_stores_entry_of_absent {E V : Type} (s : SmartCacheState V)
    (key : String) (v : V) (ct : Option CacheType) (cu : Option Nat)
    (now : Nat) (h : mapGet s.cache key = none) :
    mapGet (SmartCache.get s key (Except.ok (ε := E) v) ct cu now).state.cache
        key =
      some { data := v, timestamp := now,
             ttl := resolveTTL cu ct s.config.defaultTTL, hits := 0 } := by
  unfold SmartCache.get
  simp only [h]
  unfold SmartCache.getMiss
  rw [mapGet_set_self]
  simp [jsOrNat_resolveTTL]

/-- `has` on an expired entry answers `false` and deletes the entry and its
access stamp. -/
theorem has_expired {V : Type} (s : SmartCacheState V) (key : String)
    (now : Nat) (c : CacheEntry V) (h : mapGet s.cache key = some c)
    (hexp : c.timestamp + c.ttl ≤ now) :
    SmartCache.has s key now =
      (false,
       { s with
         cache := mapDelete s.cache key,
         accessOrder := mapDelete s.accessOrder key }) := by
  unfold SmartCache.has
  simp [h, hexp]

/-- The winner of `evictLRU`'s scan carries a stamp no larger than every
stamp in the ledger (and than the accumulator's, if any). -/
theorem oldestLoop_min (l : List (String × Nat)) :
    ∀ (acc : Option (String × Nat)) (k : String) (m : Nat),
      oldestLoop acc l = some (k, m) →
      (∀ p ∈ l, m ≤ p.2) ∧ (∀ q, acc = some q → m ≤ q.2) := by
  induction l with
  | nil =>
      intro acc k m h
      simp only [oldestLoop] at h
      subst h
      exact ⟨by simp, by intro q hq; cases hq; rfl⟩
  | cons p rest ih =>
      intro acc k m h
      simp only [oldestLoop] at h
      obtain ⟨h1, h2⟩ := ih _ k m h
      have hp : m ≤ p.2 := by
        cases acc with
        | none => exact h2 p rfl
        | some q =>
            by_cases hlt : p.2 < q.2
            · simp only [hlt, if_true] at h2
              exact h2 p rfl
            · simp only [hlt, if_false] at h2
              have := h2 q rfl
              omega
      refine ⟨?_, ?_⟩
      · intro r hr
        rcases List.mem_cons.mp hr with hr | hr
        · subst hr; exact hp
        · exact h1 r hr
      · intro q hq
        subst hq
        cases hacc : (some q : Option (String × Nat)) with
        | none => simp at hacc
        | some q' =>
            by_cases hlt : p.2 < q.2
            · simp only [hlt, if_true] at h2
              have := h2 p rfl
              omega
            · simp only [hlt, if_false] at h2
              exact h2 q rfl

theorem oldestEntry_min {l : List (String × Nat)} {k : String} {m : Nat}
    (h : oldestEntry l = some (k, m)) : ∀ p ∈ l, m ≤ p.2 :=
  (oldestLoop_min l none k m h).1

/-- Updating an existing key never evicts: the state change is exactly the
in-place update plus the access stamp. -/
theorem set_update_no_evict {V : Type} (s : SmartCacheState V) (key : String)
    (data : V) (ttl : Option Nat) (now : Nat) (c : CacheEntry V)
    (h : mapGet s.cache key = some c) :
    SmartCache.set s key data ttl now =
      { s with
        cache := mapSet s.cache key
          { data := data, timestamp := now,
            ttl := jsOrNat ttl s.config.defaultTTL, hits := 0 },
        accessOrder := mapSet s.accessOrder key s.requestCounter } := by
  have hhas : mapHas s.cache key = true := by simp [mapHas, h]
  unfold SmartCache.set
  simp [hhas]

/-- Inserting a new key at capacity evicts exactly the scan's winning key
(when that key is non-empty) and then inserts. -/
theorem set_new_at_capacity {V : Type} (s : SmartCacheState V) (key : String)
    (data : V) (ttl : Option Nat) (now : Nat) (kmin : String) (m : Nat)
    (hlen : s.cache.length ≥ s.config.maxSize)
    (hnew : mapGet s.cache key = none)
    (hold : oldestEntry s.accessOrder = some (kmin, m)) (hne : kmin ≠ "") :
    SmartCache.set s key data ttl now =
      { s with
        cache := mapSet (mapDelete s.cache kmin) key
          { data := data, timestamp := now,
            ttl := jsOrNat ttl s.config.defaultTTL, hits := 0 },
        accessOrder :=
          mapSet (mapDelete s.accessOrder kmin) key s.requestCounter } := by
  have hhas : mapHas s.cache key = false := mapHas_eq_false_of_get_none hnew
  unfold SmartCache.set
  simp [hhas, hlen, evictLRU, hold, hne]

/-- Inserting a new key at capacity when the scan's winning key is the empty
string evicts nothing (the JS `if (oldestKey)` truthiness guard). -/
theorem set_new_at_capacity_empty_key {V : Type} (s : SmartCacheState V)
    (key : String) (data : V) (ttl : Option Nat) (now : Nat) (m : Nat)
    (hlen : s.cache.length ≥ s.config.maxSize)
    (hnew : mapGet s.cache key = none)
    (hold : oldestEntry s.accessOrder = some ("", m)) :
    SmartCache.set s key data ttl now =
      { s with
        cache := mapSet s.cache key
          { data := data, timestamp := now,
            ttl := jsOrNat ttl s.config.defaultTTL, hits := 0 },
        accessOrder := mapSet s.accessOrder key s.requestCounter } := by
  have hhas : mapHas s.cache key = false := mapHas_eq_false_of_get_none hnew
  unfold SmartCache.set
  simp [hhas, hlen, evictLRU, hold]

/-! ## Claim theorems -/

/-- C2: for every cache key holding a populated, now-expired entry, if the
fetch function passed to get-or-compute throws, get-or-compute returns the
old entry's value rather than raising; if no entry exists for the key, the
fetch failure propagates to the caller. -/
theorem C2_stale_fallback :
    (∀ (V : Type) (s : SmartCacheState V) (key msg : String)
       (ct : Option CacheType) (cu : Option Nat) (now : Nat)
       (c : CacheEntry V),
       mapGet s.cache key = some c → c.timestamp + c.ttl ≤ now →
       (SmartCache.get s key (Except.error (α := V) msg) ct cu now).result =
         .ok c.data) ∧
    (∀ (V : Type) (s : SmartCacheState V) (key msg : String)
       (ct : Option CacheType) (cu : Option Nat) (now : Nat),
       mapGet s.cache key = none →
       (SmartCache.get s key (Except.error (α := V) msg) ct cu now).result =
         .error msg) :=
  ⟨fun _ s key msg ct cu now c h hexp =>
      get_stale_of_expired s key msg ct cu now c h hexp,
   fun _ s key msg ct cu now h => get_error_of_absent s key msg ct cu now h⟩

/-- Witness for C2 at a concrete expired entry and a concrete empty cache. -/
theorem C2_stale_fallback_witness :
    (SmartCache.get
        { cache := [("k", ⟨7, 0, 10, 0⟩)], accessOrder := [("k", 0)],
          stats := ⟨0, 0, 0⟩, config := ⟨10, 100, 5⟩, requestCounter := 0 }
        "k" (Except.error (α := Nat) "boom") none none 10).result = .ok 7 ∧
    (SmartCache.get (SmartCacheState.init Nat ⟨10, 100, 5⟩) "k"
        (Except.error (α := Nat) "boom") none none 10).result =
      .error "boom" :=
  ⟨C2_stale_fallback.1 Nat _ "k" "boom" none none 10 ⟨7, 0, 10, 0⟩ rfl
      (by decide),
   C2_stale_fallback.2 Nat _ "k" "boom" none none 10 rfl⟩

/-- C4: immediately after a successful get-or-compute for a key, a second
get-or-compute with the same key before the entry's TTL elapses returns the
identical stored value and does not invoke the fetch function again (fetch
call count across both calls stays at 1). -/
theorem C4_ttl_validity :
    ∀ (V : Type) (s : SmartCacheState V) (key : String) (v : V)
      (ct : Option CacheType) (cu : Option Nat) (now1 : Nat)
      (fr2 : Except String V) (ct2 : Option CacheType) (cu2 : Option Nat)
      (now2 : Nat),
      mapGet s.cache key = none →
      now2 < now1 + resolveTTL cu ct s.config.defaultTTL →
      (SmartCache.get s key (Except.ok (ε := String) v) ct cu now1).fetchCalled
          = true ∧
      (SmartCache.get s key (Except.ok (ε := String) v) ct cu now1).result =
        .ok v ∧
      (SmartCache.get
          (SmartCache.get s key (Except.ok (ε := String) v) ct cu now1).state
          key fr2 ct2 cu2 now2).result = .ok v ∧
      (SmartCache.get
          (SmartCache.get s key (Except.ok (ε := String) v) ct cu now1).state
          key fr2 ct2 cu2 now2).fetchCalled = false := by
  intro V s key v ct cu now1 fr2 ct2 cu2 now2 h hfresh
  have hstore := get_stores_entry_of_absent (E := String) s key v ct cu now1 h
  have hlive :
      ({ data := v, timestamp := now1,
         ttl := resolveTTL cu ct s.config.defaultTTL,
         hits := 0 } : CacheEntry V).timestamp +
        ({ data := v, timestamp := now1,
           ttl := resolveTTL cu ct s.config.defaultTTL,
           hits := 0 } : CacheEntry V).ttl > now2 := by
    simp only []
    omega
  have hhit := get_hit _ key fr2 ct2 cu2 now2 _ hstore hlive
  refine ⟨get_fetchCalled_of_absent s key _ ct cu now1 h, ?_, hhit.1, hhit.2⟩
  unfold SmartCache.get
  simp [h, SmartCache.getMiss]

/-- Witness for C4: a fresh store at time 0 with the default TTL, re-read at
time 1. -/
theorem C4_ttl_validity_witness :
    (SmartCache.get (SmartCacheState.init Nat ⟨10, 100, 5⟩) "k"
        (Except.ok (ε := String) 42) none none 0).fetchCalled = true ∧
    (SmartCache.get (SmartCacheState.init Nat ⟨10, 100, 5⟩) "k"
        (Except.ok (ε := String) 42) none none 0).result = .ok 42 ∧
    (SmartCache.get
        (SmartCache.get (SmartCacheState.init Nat ⟨10, 100, 5⟩) "k"
          (Except.ok (ε := String) 42) none none 0).state
        "k" (Except.ok (ε := String) 43) none none 1).result = .ok 42 ∧
    (SmartCache.get
        (SmartCache.get (SmartCacheState.init Nat ⟨10, 100, 5⟩) "k"
          (Except.ok (ε := String) 42) none none 0).state
        "k" (Except.ok (ε := String) 43) none none 1).fetchCalled = false :=
  C4_ttl_validity Nat _ "k" 42 none none 0 (Except.ok 43) none none 1 rfl
    (by decide)

/-- C5: the cache never returns an expired entry's value as a fresh result:
on an entry with `now ≥ timestamp + ttl`, get-or-compute does not take the
cache-hit path but invokes the fetch again, returning the fresh value on
fetch success; the expired value is returned only on the stale-fallback path
(fetch failure); `has` answers `false` for such an entry. -/
theorem C5_freshness_invariant :
    ∀ (V : Type) (s : SmartCacheState V) (key : String)
      (fr : Except String V) (ct : Option CacheType) (cu : Option Nat)
      (now : Nat) (c : CacheEntry V),
      mapGet s.cache key = some c → c.timestamp + c.ttl ≤ now →
      (SmartCache.get s key fr ct cu now).fetchCalled = true ∧
      (∀ v, fr = Except.ok v →
        (SmartCache.get s key fr ct cu now).result = .ok v) ∧
      (∀ msg, fr = Except.error msg →
        (SmartCache.get s key fr ct cu now).result = .ok c.data) ∧
      (SmartCache.has s key now).1 = false := by
  intro V s key fr ct cu now c h hexp
  refine ⟨get_fetchCalled_of_expired s key fr ct cu now c h hexp, ?_, ?_, ?_⟩
  · intro v hv
    subst hv
    exact get_fresh_of_expired s key v ct cu now c h hexp
  · intro msg hmsg
    subst hmsg
    exact get_stale_of_expired s key msg ct cu now c h hexp
  · rw [has_expired s key now c h hexp]

/-- Witness for C5: an entry stored at time 0 with TTL 10, read again at
time 10 (expired, fetch re-invoked — the call count over a store-then-reread
run becomes 2). -/
theorem C5_freshness_invariant_witness :
    (SmartCache.get
        { cache := [("k", ⟨7, 0, 10, 0⟩)], accessOrder := [("k", 0)],
          stats := ⟨1, 0, 1⟩, config := ⟨10, 100, 5⟩, requestCounter := 1 }
        (V := Nat) "k" (Except.ok (ε := String) 9) none none 10).fetchCalled =
      true ∧
    (∀ v, (Except.ok (ε := String) 9) = Except.ok v →
      (SmartCache.get
          { cache := [("k", ⟨7, 0, 10, 0⟩)], accessOrder := [("k", 0)],
            stats := ⟨1, 0, 1⟩, config := ⟨10, 100, 5⟩, requestCounter := 1 }
          (V := Nat) "k" (Except.ok (ε := String) 9) none none 10).result =
        .ok v) ∧
    (∀ msg, (Except.ok (ε := String) 9) = Except.error msg →
      (SmartCache.get
          { cache := [("k", ⟨7, 0, 10, 0⟩)], accessOrder := [("k", 0)],
            stats := ⟨1, 0, 1⟩, config := ⟨10, 100, 5⟩, requestCounter := 1 }
          (V := Nat) "k" (Except.ok (ε := String) 9) none none 10).result =
        .ok (⟨7, 0, 10, 0⟩ : CacheEntry Nat).data) ∧
    (SmartCache.has
        { cache := [("k", ⟨7, 0, 10, 0⟩)], accessOrder := [("k", 0)],
          stats := ⟨1, 0, 1⟩, config := ⟨10, 100, 5⟩, requestCounter := 1 }
        (V := Nat) "k" 10).1 = false :=
  C5_freshness_invariant Nat _ "k" (Except.ok 9) none none 10 ⟨7, 0, 10, 0⟩
    rfl (by decide)

/-- C10: `has` on an existing-but-expired key answers `false` and, as a side
effect, deletes the entry and its access stamp; a get-or-compute issued
afterwards whose fetch throws therefore propagates the error instead of
returning the stale value. -/
theorem C10_has_destroys_stale_fallback :
    ∀ (V : Type) (s : SmartCacheState V) (key : String) (now : Nat)
      (c : CacheEntry V),
      mapGet s.cache key = some c → c.timestamp + c.ttl ≤ now →
      (SmartCache.has s key now).1 = false ∧
      mapGet (SmartCache.has s key now).2.cache key = none ∧
      mapGet (SmartCache.has s key now).2.accessOrder key = none ∧
      (∀ (msg : String) (ct : Option CacheType) (cu : Option Nat)
        (now2 : Nat),
        (SmartCache.get (SmartCache.has s key now).2 key
            (Except.error (α := V) msg) ct cu now2).result = .error msg) := by
  intro V s key now c h hexp
  rw [has_expired s key now c h hexp]
  refine ⟨rfl, mapGet_mapDelete_self _ _, mapGet_mapDelete_self _ _, ?_⟩
  intro msg ct cu now2
  exact get_error_of_absent _ key msg ct cu now2 (mapGet_mapDelete_self _ _)

/-- Witness for C10 at a concrete expired entry. -/
theorem C10_has_destroys_stale_fallback_witness :
    (SmartCache.has
        { cache := [("k", ⟨7, 0, 10, 0⟩)], accessOrder := [("k", 0)],
          stats := ⟨0, 0, 0⟩, config := ⟨10, 100, 5⟩, requestCounter := 0 }
        (V := Nat) "k" 10).1 = false ∧
    mapGet (SmartCache.has
        { cache := [("k", ⟨7, 0, 10, 0⟩)], accessOrder := [("k", 0)],
          stats := ⟨0, 0, 0⟩, config := ⟨10, 100, 5⟩, requestCounter := 0 }
        (V := Nat) "k" 10).2.cache "k" = none ∧
    mapGet (SmartCache.has
        { cache := [("k", ⟨7, 0, 10, 0⟩)], accessOrder := [("k", 0)],
          stats := ⟨0, 0, 0⟩, config := ⟨10, 100, 5⟩, requestCounter := 0 }
        (V := Nat) "k" 10).2.accessOrder "k" = none ∧
    (∀ (msg : String) (ct : Option CacheType) (cu : Option Nat) (now2 : Nat),
      (SmartCache.get (SmartCache.has
          { cache := [("k", ⟨7, 0, 10, 0⟩)], accessOrder := [("k", 0)],
            stats := ⟨0, 0, 0⟩, config := ⟨10, 100, 5⟩, requestCounter := 0 }
          (V := Nat) "k" 10).2 "k" (Except.error (α := Nat) msg) ct cu
          now2).result = .error msg) :=
  C10_has_destroys_stale_fallback Nat _ "k" 10 ⟨7, 0, 10, 0⟩ rfl (by decide)

/-- C3 counterexample: a cache of capacity 1 holding exactly the key `""`
(which is therefore the least-recently-touched key).  Inserting the new key
`"x"` evicts nothing — `evictLRU`'s `if (oldestKey)` truthiness guard treats
the empty-string winner as "no key" — so `""` survives and the cache ends
with 2 entries despite `maxSize = 1`. -/
theorem C3_lru_eviction_counterexample :
    (mapGet (SmartCache.set
        (SmartCache.set (SmartCacheState.init Nat ⟨1, 100, 5⟩) "" 1 none 10)
        "x" 2 none 11).cache "").isSome = true ∧
    (SmartCache.set
        (SmartCache.set (SmartCacheState.init Nat ⟨1, 100, 5⟩) "" 1 none 10)
        "x" 2 none 11).cache.length = 2 ∧
    (SmartCache.set
        (SmartCache.set (SmartCacheState.init Nat ⟨1, 100, 5⟩) "" 1 none 10)
        "x" 2 none 11).config.maxSize = 1 := by
  decide

/-- C3 (amended): updating an existing key never evicts; inserting a new key
at capacity evicts exactly the key winning `evictLRU`'s scan — a key of
minimal access stamp — *provided that key is not the empty string* (an
empty-string winner is falsy in JS, so nothing is evicted and the cache
exceeds capacity); inserting N+1 distinct non-empty keys with no intervening
reads leaves exactly the first key absent. -/
theorem C3_lru_eviction_amended :
    (∀ (V : Type) (s : SmartCacheState V) (key : String) (data : V)
       (ttl : Option Nat) (now : Nat) (c : CacheEntry V),
       mapGet s.cache key = some c →
       SmartCache.set s key data ttl now =
         { s with
           cache := mapSet s.cache key
             { data := data, timestamp := now,
               ttl := jsOrNat ttl s.config.defaultTTL, hits := 0 },
           accessOrder := mapSet s.accessOrder key s.requestCounter }) ∧
    (∀ (V : Type) (s : SmartCacheState V) (key : String) (data : V)
       (ttl : Option Nat) (now : Nat) (kmin : String) (m : Nat),
       s.cache.length ≥ s.config.maxSize → mapGet s.cache key = none →
       oldestEntry s.accessOrder = some (kmin, m) → kmin ≠ "" →
       (∀ p ∈ s.accessOrder, m ≤ p.2) ∧
       SmartCache.set s key data ttl now =
         { s with
           cache := mapSet (mapDelete s.cache kmin) key
             { data := data, timestamp := now,
               ttl := jsOrNat ttl s.config.defaultTTL, hits := 0 },
           accessOrder :=
             mapSet (mapDelete s.accessOrder kmin) key s.requestCounter }) ∧
    (mapGet (SmartCache.set (SmartCache.set
        (SmartCache.set (SmartCacheState.init Nat ⟨2, 100, 5⟩) "a" 1 none 10)
        "b" 2 none 11) "c" 3 none 12).cache "a" = none ∧
     (mapGet (SmartCache.set (SmartCache.set
        (SmartCache.set (SmartCacheState.init Nat ⟨2, 100, 5⟩) "a" 1 none 10)
        "b" 2 none 11) "c" 3 none 12).cache "b").isSome = true ∧
     (mapGet (SmartCache.set (SmartCache.set
        (SmartCache.set (SmartCacheState.init Nat ⟨2, 100, 5⟩) "a" 1 none 10)
        "b" 2 none 11) "c" 3 none 12).cache "c").isSome = true) := by
  refine ⟨?_, ?_, by decide⟩
  · intro V s key data ttl now c h
    exact set_update_no_evict s key data ttl now c h
  · intro V s key data ttl now kmin m hlen hnew hold hne
    exact ⟨oldestEntry_min hold,
      set_new_at_capacity s key data ttl now kmin m hlen hnew hold hne⟩

/-- Witness for C3 (amended): the no-evict-on-update clause at a one-entry
cache, and the eviction clause at a full two-entry cache whose
least-recently-stamped key is `"a"`. -/
theorem C3_lru_eviction_amended_witness :
    (SmartCache.set
        { cache := [("k", ⟨7, 0, 10, 0⟩)], accessOrder := [("k", 0)],
          stats := ⟨0, 0, 0⟩, config := ⟨1, 100, 5⟩, requestCounter := 0 }
        (V := Nat) "k" 8 none 3 =
      { cache := [("k", ⟨8, 3, 100, 0⟩)], accessOrder := [("k", 0)],
        stats := ⟨0, 0, 0⟩, config := ⟨1, 100, 5⟩, requestCounter := 0 }) ∧
    ((∀ p ∈ [("a", (1 : Nat)), ("b", 2)], 1 ≤ p.2) ∧
      SmartCache.set
        { cache := [("a", ⟨1, 0, 10, 0⟩), ("b", ⟨2, 0, 10, 0⟩)],
          accessOrder := [("a", 1), ("b", 2)], stats := ⟨0, 0, 0⟩,
          config := ⟨2, 100, 5⟩, requestCounter := 3 }
        (V := Nat) "c" 9 none 4 =
      { cache := [("b", ⟨2, 0, 10, 0⟩), ("c", ⟨9, 4, 100, 0⟩)],
        accessOrder := [("b", 2), ("c", 3)], stats := ⟨0, 0, 0⟩,
        config := ⟨2, 100, 5⟩, requestCounter := 3 }) := by
  constructor
  · have h := C3_lru_eviction_amended.1 Nat
      { cache := [("k", ⟨7, 0, 10, 0⟩)], accessOrder := [("k", 0)],
        stats := ⟨0, 0, 0⟩, config := ⟨1, 100, 5⟩, requestCounter := 0 }
      "k" 8 none 3 ⟨7, 0, 10, 0⟩ rfl
    rw [h]
    decide
  · have h := C3_lru_eviction_amended.2.1 Nat
      { cache := [("a", ⟨1, 0, 10, 0⟩), ("b", ⟨2, 0, 10, 0⟩)],
        accessOrder := [("a", 1), ("b", 2)], stats := ⟨0, 0, 0⟩,
        config := ⟨2, 100, 5⟩, requestCounter := 3 }
      "c" 9 none 4 "a" 1 (by decide) rfl (by decide) (by decide)
    refine ⟨h.1, ?_⟩
    rw [h.2]
    decide

/-! ## Lookup/permutation lemmas for `generateKey` -/

theorem mem_of_mapGet_eq_some {α : Type} {l : List (String × α)} {k : String}
    {v : α} (h : mapGet l k = some v) : (k, v) ∈ l := by
  induction l with
  | nil => simp [mapGet] at h
  | cons p rest ih =>
      obtain ⟨k', v'⟩ := p
      by_cases hk : k' = k
      · subst hk
        have hv : v' = v := by simpa [mapGet_cons] using h
        subst hv
        exact List.mem_cons_self _ _
      · simp only [mapGet_cons, hk, if_false] at h
        exact List.mem_cons_of_mem _ (ih h)

theorem mapGet_eq_none_iff {α : Type} {l : List (String × α)} {k : String} :
    mapGet l k = none ↔ k ∉ l.map Prod.fst := by
  induction l with
  | nil => simp [mapGet]
  | cons p rest ih =>
      obtain ⟨k', v'⟩ := p
      by_cases hk : k' = k
      · subst hk
        simp [mapGet_cons]
      · simp [mapGet_cons, hk, ih, Ne.symm hk]

theorem mapGet_eq_some_of_mem {α : Type} {l : List (String × α)} {k : String}
    {v : α} (hnd : (l.map Prod.fst).Nodup) (h : (k, v) ∈ l) :
    mapGet l k = some v := by
  induction l with
  | nil => simp at h
  | cons p rest ih =>
      obtain ⟨k', v'⟩ := p
      have hnd' := hnd
      rw [List.map_cons, List.nodup_cons] at hnd'
      rcases List.mem_cons.mp h with heq | hmem
      · obtain ⟨hk, hv⟩ := Prod.mk.injEq .. ▸ heq
        subst hk
        injection heq with hk2 hv2
        subst hv2
        simp [mapGet_cons]
      · by_cases hk : k' = k
        · subst hk
          exact absurd (List.mem_map_of_mem Prod.fst hmem) hnd'.1
        · simp only [mapGet_cons, hk, if_false]
          exact ih hnd'.2 hmem

/-- Association lists that are permutations of each other with no duplicate
keys agree on every lookup. -/
theorem mapGet_perm {α : Type} {l1 l2 : List (String × α)} (hp : l1.Perm l2)
    (hnd : (l1.map Prod.fst).Nodup) (k : String) :
    mapGet l1 k = mapGet l2 k := by
  have hnd2 : (l2.map Prod.fst).Nodup := ((hp.map Prod.fst).nodup_iff).mp hnd
  cases hg : mapGet l1 k with
  | some v =>
      exact (mapGet_eq_some_of_mem hnd2
        (hp.subset (mem_of_mapGet_eq_some hg))).symm
  | none =>
      symm
      rw [mapGet_eq_none_iff] at hg ⊢
      intro hmem
      exact hg (((hp.map Prod.fst).mem_iff).mpr hmem)

/-- Sorting is a function of the multiset of keys. -/
theorem sortKeys_perm_eq {l1 l2 : List String} (hp : l1.Perm l2) :
    sortKeys l1 = sortKeys l2 := by
  unfold sortKeys
  exact List.eq_of_perm_of_sorted
    ((List.perm_insertionSort (· ≤ ·) l1).trans
      (hp.trans (List.perm_insertionSort (· ≤ ·) l2).symm))
    (List.sorted_insertionSort (· ≤ ·) l1)
    (List.sorted_insertionSort (· ≤ ·) l2)

/-- C6: for every operation name and all parameter records that are
permutations of the same key-value pairs, `generateKey` produces the same
cache key — parameter names are sorted before serialization. -/
theorem C6_generateKey_deterministic :
    ∀ (op : String) (p1 p2 : List (String × Jval)),
      p1.Perm p2 → (p1.map Prod.fst).Nodup →
      SmartCache.generateKey op p1 = SmartCache.generateKey op p2 := by
  intro op p1 p2 hp hnd
  unfold SmartCache.generateKey
  have hkeys : sortKeys (p1.map Prod.fst) = sortKeys (p2.map Prod.fst) :=
    sortKeys_perm_eq (hp.map Prod.fst)
  have hfun :
      (fun k => (mapGet p1 k).map (fun v => (k, v))) =
        (fun k => (mapGet p2 k).map (fun v => (k, v))) :=
    funext (fun k => by rw [mapGet_perm hp hnd k])
  rw [hkeys, hfun]

/-- Witness for C6: the `list_tags` parameter record in its two argument
orders. -/
theorem C6_generateKey_deterministic_witness :
    SmartCache.generateKey "list_tags"
        [("repository", Jval.str "nginx"), ("namespace", Jval.str "library"),
         ("page", Jval.num 1)] =
      SmartCache.generateKey "list_tags"
        [("page", Jval.num 1), ("namespace", Jval.str "library"),
         ("repository", Jval.str "nginx")] :=
  C6_generateKey_deterministic "list_tags" _ _ (by decide) (by decide)

/-- C1 counterexample: `listRepositoryTags` with a credential supplied, whose
unauthenticated attempt *succeeds* (HTTP 200) with a body reporting
`count === 0`, still invokes the credential exchanger (call count 1, not 0)
and issues an authenticated retry of the same request. -/
theorem C1_auth_fallback_counterexample :
    (listRepositoryTags (HttpOutcome.ok ⟨some 0, "empty-page"⟩) (some "cred")
        (Except.ok "jwt1") (Except.ok "jwt2")
        (fun _ => HttpOutcome.ok ⟨some 5, "private-tags"⟩)
        (fun _ => HttpOutcome.ok ⟨some 0, "unused"⟩)).exchangeCalls = 1 ∧
    (listRepositoryTags (HttpOutcome.ok ⟨some 0, "empty-page"⟩) (some "cred")
        (Except.ok "jwt1") (Except.ok "jwt2")
        (fun _ => HttpOutcome.ok ⟨some 5, "private-tags"⟩)
        (fun _ => HttpOutcome.ok ⟨some 0, "unused"⟩)).retryAuths =
      ["jwt1"] := by
  constructor <;> rfl

/-- C1 (amended): `getManifestDetails` satisfies the claim as stated — on a
200 the exchanger is never invoked, and on a 401/404 with a credential whose
exchange yields a (truthy) token, the exchanger runs exactly once and its
token is attached to exactly one retry.  `listRepositoryTags` satisfies it
on its failure path and on any 200 whose body count differs from 0 (or when
no credential is supplied), but on a 200 reporting `count === 0` with a
credential it invokes the exchanger once and retries once anyway. -/
theorem C1_auth_fallback_amended :
    (∀ (R : Type) (r : R) (token exch : Option String)
       (authed : String → HttpOutcome R),
       getManifestDetails (HttpOutcome.ok r) token exch authed =
         { result := .ok r, exchangeCalls := 0, retryAuths := [] }) ∧
    (∀ (R : Type) (e : HttpOutcome R) (t bt : String)
       (authed : String → HttpOutcome R),
       isAuthShaped e = true → bt ≠ "" →
       (getManifestDetails e (some t) (some bt) authed).exchangeCalls = 1 ∧
       (getManifestDetails e (some t) (some bt) authed).retryAuths = [bt]) ∧
    (∀ (r : TagsResp) (token : Option String)
       (e1 e2 : Except String String)
       (a1 a2 : String → HttpOutcome TagsResp),
       r.count ≠ some 0 →
       listRepositoryTags (HttpOutcome.ok r) token e1 e2 a1 a2 =
         { result := .ok r, exchangeCalls := 0, retryAuths := [] }) ∧
    (∀ (r : TagsResp) (e1 e2 : Except String String)
       (a1 a2 : String → HttpOutcome TagsResp),
       listRepositoryTags (HttpOutcome.ok r) none e1 e2 a1 a2 =
         { result := .ok r, exchangeCalls := 0, retryAuths := [] }) ∧
    (∀ (e : HttpOutcome TagsResp) (t jwt : String)
       (e2 : Except String String) (a1 a2 : String → HttpOutcome TagsResp),
       isAuthShaped e = true → jwt ≠ "" →
       (listRepositoryTags e (some t) (Except.ok jwt) e2 a1 a2).exchangeCalls
           = 1 ∧
       (listRepositoryTags e (some t) (Except.ok jwt) e2 a1 a2).retryAuths =
         [jwt]) ∧
    (∀ (r r2 : TagsResp) (t jwt : String) (e2 : Except String String)
       (a2 : String → HttpOutcome TagsResp),
       r.count = some 0 → jwt ≠ "" →
       listRepositoryTags (HttpOutcome.ok r) (some t) (Except.ok jwt) e2
           (fun _ => HttpOutcome.ok r2) a2 =
         { result := .ok r2, exchangeCalls := 1, retryAuths := [jwt] }) := by
  refine ⟨?_, ?_, ?_, ?_, ?_, ?_⟩
  · intro R r token exch authed
    rfl
  · intro R e t bt authed hsh hbt
    cases e with
    | ok r => simp [isAuthShaped] at hsh
    | axiosErr st m =>
        cases hb : authed bt <;>
          simp [getManifestDetails, hsh, hbt, hb]
    | otherErr m => simp [isAuthShaped] at hsh
  · intro r token e1 e2 a1 a2 hc
    unfold listRepositoryTags
    simp [hc]
  · intro r e1 e2 a1 a2
    unfold listRepositoryTags
    simp
  · intro e t jwt e2 a1 a2 hsh hjwt
    cases e with
    | ok r => simp [isAuthShaped] at hsh
    | axiosErr st m =>
        cases hb : a1 jwt <;>
          simp [listRepositoryTags, listTagsCatch, hsh, hjwt, hb]
    | otherErr m => simp [isAuthShaped] at hsh
  · intro r r2 t jwt e2 a2 hc hjwt
    unfold listRepositoryTags
    simp [hc, hjwt]

/-- Witness for C1 (amended) at concrete 401 failures and a concrete
count-0 success. -/
theorem C1_auth_fallback_amended_witness :
    (getManifestDetails (HttpOutcome.axiosErr (some 401) "unauthorized")
        (some "cred") (some "bt")
        (fun _ => HttpOutcome.ok "manifest")).exchangeCalls = 1 ∧
    (getManifestDetails (HttpOutcome.axiosErr (some 401) "unauthorized")
        (some "cred") (some "bt")
        (fun _ => HttpOutcome.ok "manifest")).retryAuths = ["bt"] ∧
    (listRepositoryTags (HttpOutcome.axiosErr (some 404) "not found")
        (some "cred") (Except.ok "jwt") (Except.ok "jwt-b")
        (fun _ => HttpOutcome.ok ⟨some 7, "tags"⟩)
        (fun _ => HttpOutcome.ok ⟨some 0, "unused"⟩)).exchangeCalls = 1 ∧
    listRepositoryTags (HttpOutcome.ok ⟨some 3, "tags"⟩) (some "cred")
        (Except.ok "jwt") (Except.ok "jwt-b")
        (fun _ => HttpOutcome.ok ⟨some 7, "x"⟩)
        (fun _ => HttpOutcome.ok ⟨some 0, "unused"⟩) =
      { result := .ok ⟨some 3, "tags"⟩, exchangeCalls := 0,
        retryAuths := [] } :=
  ⟨(C1_auth_fallback_amended.2.1 String
      (HttpOutcome.axiosErr (some 401) "unauthorized") "cred" "bt"
      (fun _ => HttpOutcome.ok "manifest") rfl (by decide)).1,
   (C1_auth_fallback_amended.2.1 String
      (HttpOutcome.axiosErr (some 401) "unauthorized") "cred" "bt"
      (fun _ => HttpOutcome.ok "manifest") rfl (by decide)).2,
   (C1_auth_fallback_amended.2.2.2.2.1
      (HttpOutcome.axiosErr (some 404) "not found") "cred" "jwt"
      (Except.ok "jwt-b") (fun _ => HttpOutcome.ok ⟨some 7, "tags"⟩)
      (fun _ => HttpOutcome.ok ⟨some 0, "unused"⟩) rfl (by decide)).1,
   C1_auth_fallback_amended.2.2.1 ⟨some 3, "tags"⟩ (some "cred")
      (Except.ok "jwt") (Except.ok "jwt-b")
      (fun _ => HttpOutcome.ok ⟨some 7, "x"⟩)
      (fun _ => HttpOutcome.ok ⟨some 0, "unused"⟩) (by decide)⟩

/-- C7: asymmetric error policy of the two credential-exchanger operations.
`getDockerHubBearerToken` tries the credential as a basic-auth password
first (a successful first attempt makes the second irrelevant), returns the
token or `null`, and never throws — in particular both attempts failing
yields `null`.  `getDockerHubAPIToken` raises on failure rather than
returning `null`. -/
theorem C7_exchanger_asymmetry :
    (∀ (pat scope : String) (r1 r2 : Except String AuthTokenResponse),
       ∃ v, getDockerHubBearerToken pat scope r1 r2 = .ok v) ∧
    (∀ (pat scope e1 e2 : String),
       getDockerHubBearerToken pat scope (.error e1) (.error e2) =
         .ok none) ∧
    (∀ (pat scope : String) (d : AuthTokenResponse)
       (r2 r2' : Except String AuthTokenResponse),
       getDockerHubBearerToken pat scope (.ok d) r2 =
         getDockerHubBearerToken pat scope (.ok d) r2') ∧
    (∀ (pat token : String),
       getDockerHubAPIToken pat (.ok token) = .ok token) ∧
    (∀ (pat : String) (st : Option Nat) (detail : Option String)
       (msg : String),
       ∃ e, getDockerHubAPIToken pat (.axiosErr st detail msg) = .error e) ∧
    (∀ (pat msg : String),
       getDockerHubAPIToken pat (.otherErr msg) = .error msg) := by
  refine ⟨?_, fun _ _ _ _ => rfl, fun _ _ _ _ _ => rfl, fun _ _ => rfl,
    fun _ _ _ _ => ⟨_, rfl⟩, fun _ _ => rfl⟩
  intro pat scope r1 r2
  cases r1 with
  | ok d => exact ⟨_, rfl⟩
  | error e1 => cases r2 with
    | ok d => exact ⟨_, rfl⟩
    | error e2 => exact ⟨_, rfl⟩

/-- C8 counterexample: the `docker_get_image_details` handler has no
`try`/`catch`, so a fetch failure escapes the tool boundary as a raised
error instead of coming back as a well-shaped envelope. -/
theorem C8_tool_envelope_counterexample :
    dockerGetImageDetailsHandler "library" "nginx"
        (Except.error "Request failed with status code 500") =
      Except.error "Request failed with status code 500" := rfl

/-- C8 (amended): the `docker_compare_images` handler never raises — on any
failure of either fetch it returns a well-shaped envelope whose `comparison`
payload is the `null` sentinel and whose summary text reports the failure —
but the `docker_get_image_details` handler, which has no error handling,
propagates a fetch failure out of the tool boundary. -/
theorem C8_tool_envelope_amended :
    (∀ (o1 o2 : Except CmpErr CmpImage),
       ∃ env, dockerCompareImagesHandler o1 o2 = .ok env) ∧
    (∀ (e : CmpErr) (o2 : Except CmpErr CmpImage),
       dockerCompareImagesHandler (.error e) o2 =
         .ok { contentText :=
                 "Failed to compare images: " ++ jsOrStr e.upstreamMsg e.message,
               comparison := none }) ∧
    (∀ (img1 : CmpImage) (e : CmpErr),
       dockerCompareImagesHandler (.ok img1) (.error e) =
         .ok { contentText :=
                 "Failed to compare images: " ++ jsOrStr e.upstreamMsg e.message,
               comparison := none }) ∧
    (∀ (ns repository d : String),
       dockerGetImageDetailsHandler ns repository (.ok d) =
         .ok { contentText :=
                 "Details for " ++ ns ++ "/" ++ repository ++ " are: " ++ d,
               results := d }) ∧
    (∀ (ns repository e : String),
       dockerGetImageDetailsHandler ns repository (.error e) =
         .error e) := by
  refine ⟨?_, ?_, fun _ _ => rfl, fun _ _ _ => rfl, fun _ _ _ => rfl⟩
  · intro o1 o2
    cases o1 with
    | ok img1 => cases o2 with
      | ok img2 => exact ⟨_, rfl⟩
      | error e => exact ⟨_, rfl⟩
    | error e => cases o2 with
      | ok img2 => exact ⟨_, rfl⟩
      | error e2 => exact ⟨_, rfl⟩
  · intro e o2
    cases o2 with
    | ok img2 => rfl
    | error e2 => rfl

/-- C9: non-interference of error text with the credential.  Every message
the fallback pipeline or the credential exchanger produces is built from the
environment's responses alone: with the upstream outcomes fixed, the whole
observable result — error text included — is the same function for any two
supplied credential values, so the code never embeds the credential (or an
ephemeral token it did not attach as a header) into a surfaced message. -/
theorem C9_no_credential_in_errors :
    (∀ (R : Type) (unauth : HttpOutcome R) (t1 t2 : String)
       (exch : Option String) (authed : String → HttpOutcome R),
       getManifestDetails unauth (some t1) exch authed =
         getManifestDetails unauth (some t2) exch authed) ∧
    (∀ (t1 t2 : String) (o : LoginOutcome),
       getDockerHubAPIToken t1 o = getDockerHubAPIToken t2 o) ∧
    (∀ (t1 t2 scope : String) (r1 r2 : Except String AuthTokenResponse),
       getDockerHubBearerToken t1 scope r1 r2 =
         getDockerHubBearerToken t2 scope r1 r2) ∧
    (∀ (unauth : HttpOutcome TagsResp) (t1 t2 : String)
       (e1 e2 : Except String String)
       (a1 a2 : String → HttpOutcome TagsResp),
       listRepositoryTags unauth (some t1) e1 e2 a1 a2 =
         listRepositoryTags unauth (some t2) e1 e2 a1 a2) := by
  refine ⟨?_, fun _ _ o => rfl, fun _ _ _ _ _ => rfl, ?_⟩
  · intro R unauth t1 t2 exch authed
    cases unauth <;> rfl
  · intro unauth t1 t2 e1 e2 a1 a2
    cases unauth <;> rfl

end PixilSpec
